import Mathlib

/-!
Verification development for `action-check.py`, a terminal monitor for GitHub
Actions workflow runs.  The Python source is shallowly embedded: pure string
manipulation becomes Lean functions on `String`/`List Char`, the stateful TUI
controller becomes explicit state passing over an `AppState` record, and the
HTTP gateway becomes a record of pure response functions whose invocations are
recorded in an observable call trace.
-/

namespace ActionCheck

/-! ## ASCII case helpers

Python's `str.lower()` / `str.upper()` restricted to ASCII letters, which is
the only alphabet the provider's status vocabulary uses. -/

def asciiLower (c : Char) : Char :=
  if 65 ≤ c.toNat ∧ c.toNat ≤ 90 then Char.ofNat (c.toNat + 32) else c

def asciiUpper (c : Char) : Char :=
  if 97 ≤ c.toNat ∧ c.toNat ≤ 122 then Char.ofNat (c.toNat - 32) else c

def lowerStr (s : String) : String := ⟨s.data.map asciiLower⟩

def upperStr (s : String) : String := ⟨s.data.map asciiUpper⟩

/-- Python `s.replace("_", " ")`: a single-character pattern, so a
character-wise map. -/
def replaceUnderscore (s : String) : String :=
  ⟨s.data.map (fun c => if c = '_' then ' ' else c)⟩

/-- Python truthiness of an optional string: `None` and `""` are falsy.
Used to embed `a or b` chains over `dict.get` results. -/
def truthyStr : Option String → Option String
  | some s => if s = "" then none else some s
  | none => none

/-! ## `remove_emojis` (source lines 22-42)

Removes characters in four Unicode emoji ranges, then strips surrounding
whitespace (`str.strip()`); the ASCII whitespace set suffices for the
strings involved. -/

def isEmojiChar (c : Char) : Bool :=
  (0x1F300 ≤ c.toNat && c.toNat ≤ 0x1FAFF) ||
  (0x1F600 ≤ c.toNat && c.toNat ≤ 0x1F64F) ||
  (0x2600 ≤ c.toNat && c.toNat ≤ 0x26FF) ||
  (0x2700 ≤ c.toNat && c.toNat ≤ 0x27BF)

def isPySpace (c : Char) : Bool :=
  c = ' ' || c = '\t' || c = '\n' || c = '\r' || c = '\x0b' || c = '\x0c'

def pyStripChars (l : List Char) : List Char :=
  ((l.dropWhile isPySpace).reverse.dropWhile isPySpace).reverse

def remove_emojis (text : String) : String :=
  String.mk (pyStripChars (text.data.filter (fun c => ! isEmojiChar c)))

/-! ## Status classification (source lines 587-598 and 620-638)

The classification is inlined twice in `show_detailed_log`, once for the run
header and once for each step; the two inline copies are embedded as two
separate definitions so that their agreement is a provable statement rather
than true by construction. -/

/-- Run-header status classification: returns `(color, label)` exactly as the
branch at source lines 587-598 computes them. -/
def classifyRun (raw_status : String) : String × String :=
  let status_lower := lowerStr raw_status
  if status_lower = "success" ∨ status_lower = "completed" then
    ("green", "SUCCESS")
  else if status_lower = "failure" ∨ status_lower = "failed" ∨
      status_lower = "cancelled" ∨ status_lower = "timed_out" then
    ("red", "FAILURE")
  else if status_lower = "neutral" ∨ status_lower = "skipped" ∨
      status_lower = "action_required" then
    ("yellow", upperStr (replaceUnderscore status_lower))
  else
    ("cyan", upperStr raw_status)

/-- Step-level status classification: the branch at source lines 620-638. -/
def classifyStep (step_status_str : String) : String × String :=
  let step_lower := lowerStr step_status_str
  if step_lower = "success" ∨ step_lower = "completed" then
    ("green", "SUCCESS")
  else if step_lower = "failure" ∨ step_lower = "failed" ∨
      step_lower = "cancelled" ∨ step_lower = "timed_out" then
    ("red", "FAILURE")
  else if step_lower = "neutral" ∨ step_lower = "skipped" ∨
      step_lower = "action_required" then
    ("yellow", upperStr (replaceUnderscore step_lower))
  else
    ("cyan", upperStr step_status_str)

/-- The display taxonomy of the spec (§2): five kinds. -/
inductive StatusKind
  | SUCCESS
  | FAILURE
  | WARNING
  | PENDING
  | UNKNOWN
deriving DecidableEq

/-- Which display bucket a `(color, label)` pair of the source classification
belongs to: the source encodes the bucket in the color tag (green / red /
yellow branches, cyan fallback). -/
def kindOf (cl : String × String) : StatusKind :=
  if cl.1 = "green" then StatusKind.SUCCESS
  else if cl.1 = "red" then StatusKind.FAILURE
  else if cl.1 = "yellow" then StatusKind.WARNING
  else StatusKind.UNKNOWN

/-- Modelled from the spec: the mapping table of §4.1, which (unlike the
source classification) has a distinct PENDING bucket for
queued / in_progress / waiting / requested / pending.  Used only to compare
the spec's table against the source's classification. -/
def specClassifyKind (raw : String) : StatusKind :=
  let l := lowerStr raw
  if l = "success" ∨ l = "completed" then StatusKind.SUCCESS
  else if l = "failure" ∨ l = "failed" ∨ l = "cancelled" ∨ l = "timed_out" then
    StatusKind.FAILURE
  else if l = "neutral" ∨ l = "skipped" ∨ l = "action_required" then
    StatusKind.WARNING
  else if l = "queued" ∨ l = "in_progress" ∨ l = "waiting" ∨
      l = "requested" ∨ l = "pending" then
    StatusKind.PENDING
  else StatusKind.UNKNOWN

/-! ## Timestamps and duration (source lines 774-791)

`datetime.fromisoformat(ts.replace("Z", "+00:00"))` on the ISO-8601 subset
the provider emits: `YYYY-MM-DDTHH:MM:SS` with an optional `±HH:MM` offset.
A parse failure models the `ValueError` the source catches.  Python
distinguishes naive and offset-aware datetimes; subtracting a naive from an
aware one raises `TypeError`, also caught by the source, so the parse result
records awareness. -/

def digitVal (c : Char) : Option Nat :=
  if 48 ≤ c.toNat ∧ c.toNat ≤ 57 then some (c.toNat - 48) else none

def num2 (a b : Char) : Option Nat := do
  let x ← digitVal a
  let y ← digitVal b
  pure (10 * x + y)

def num4 (a b c d : Char) : Option Nat := do
  let x ← num2 a b
  let y ← num2 c d
  pure (100 * x + y)

def isLeap (y : Nat) : Bool := (y % 4 = 0 && y % 100 != 0) || y % 400 = 0

def daysInMonth (y m : Nat) : Nat :=
  if m = 2 then (if isLeap y then 29 else 28)
  else if m = 4 ∨ m = 6 ∨ m = 9 ∨ m = 11 then 30
  else 31

/-- Days in the full years 1 .. y-1 of the proleptic Gregorian calendar. -/
def daysBeforeYear (y : Nat) : Nat :=
  365 * (y - 1) + (y - 1) / 4 - (y - 1) / 100 + (y - 1) / 400

def daysBeforeMonth (y m : Nat) : Nat :=
  (List.range (m - 1)).foldl (fun acc i => acc + daysInMonth y (i + 1)) 0

def validDate (y mo d h mi s : Nat) : Bool :=
  1 ≤ y && y ≤ 9999 && 1 ≤ mo && mo ≤ 12 && 1 ≤ d && d ≤ daysInMonth y mo &&
  h ≤ 23 && mi ≤ 59 && s ≤ 59

/-- Seconds since the epoch of day 1 of year 1, shifted to UTC by the offset
(in minutes). -/
def toSecondsUTC (y mo d h mi s : Nat) (offsetMinutes : Int) : Int :=
  ((daysBeforeYear y + daysBeforeMonth y mo + (d - 1)) * 86400
    + h * 3600 + mi * 60 + s : Nat) - offsetMinutes * 60

structure ParsedTs where
  sec : Int
  aware : Bool
deriving DecidableEq

/-- Trailing UTC-offset part: empty (naive), or `±HH:MM` (aware, value in
minutes); anything else is malformed. -/
def parseOffset : List Char → Option (Option Int)
  | [] => some none
  | [sgn, h1, h2, ':', m1, m2] =>
    if sgn = '+' ∨ sgn = '-' then do
      let h ← num2 h1 h2
      let m ← num2 m1 m2
      if h ≤ 23 ∧ m ≤ 59 then
        let tot : Int := h * 60 + m
        some (some (if sgn = '-' then -tot else tot))
      else none
    else none
  | _ => none

def parseIsoChars : List Char → Option ParsedTs
  | y1 :: y2 :: y3 :: y4 :: '-' :: m1 :: m2 :: '-' :: d1 :: d2 :: 'T' ::
      h1 :: h2 :: ':' :: n1 :: n2 :: ':' :: s1 :: s2 :: rest => do
    let y ← num4 y1 y2 y3 y4
    let mo ← num2 m1 m2
    let d ← num2 d1 d2
    let h ← num2 h1 h2
    let mi ← num2 n1 n2
    let s ← num2 s1 s2
    let off ← parseOffset rest
    if validDate y mo d h mi s then
      some ⟨toSecondsUTC y mo d h mi s (off.getD 0), off.isSome⟩
    else none
  | _ => none

/-- Python `ts.replace("Z", "+00:00")`. -/
def replaceZ (s : String) : String :=
  ⟨s.data.foldr
    (fun c acc =>
      if c = 'Z' then '+' :: '0' :: '0' :: ':' :: '0' :: '0' :: acc
      else c :: acc)
    []⟩

def pyFromIso (s : String) : Option ParsedTs := parseIsoChars (replaceZ s).data

/-- Duration computation of `fetch_run_details` (source lines 776-791):
missing (`None` or `""`) or malformed timestamps give `"?"`; otherwise the
difference in whole seconds is clamped at zero and rendered `"{m}m {s}s"`
when the minute part is nonzero, else `"{s}s"`. -/
def computeDuration (started_at completed_at : Option String) : String :=
  match started_at, completed_at with
  | some s, some c =>
    if s = "" ∨ c = "" then "?"
    else
      match pyFromIso s, pyFromIso c with
      | some t1, some t2 =>
        if t1.aware = t2.aware then
          let total : Int := t2.sec - t1.sec
          let tot : Nat := (max total 0).toNat
          let m : Nat := tot / 60
          let sec : Nat := tot % 60
          if m ≠ 0 then toString m ++ "m " ++ toString sec ++ "s"
          else toString sec ++ "s"
        else "?"
      | _, _ => "?"
  | _, _ => "?"

/-! ## Data model

Entities as the Python dicts carry them.  Workflow and run dicts built by the
app always carry an integer `id` (the API value, or the sentinel `0` of a
placeholder row), so `id` is embedded as `Nat`; optional JSON fields read via
`dict.get` are embedded as `Option`. -/

structure Workflow where
  id : Nat
  name : String
deriving DecidableEq

/-- One entry of the `workflow_runs` JSON array, as `load_runs` reads it. -/
structure RawRun where
  id : Nat
  status : String
  conclusion : Option String
  created_at : Option String
deriving DecidableEq

/-- One entry of `self.runs`.  `created` carries the run's `created_at`
timestamp (the source additionally renders it in the America/New_York zone
via the external `zoneinfo` collaborator; that rendering is presentation and
is not modelled). -/
structure Run where
  id : Nat
  status : String
  name : String
  created : Option String
  log : String
deriving DecidableEq

/-- One entry of a job's `steps` JSON array, as `fetch_run_details` reads it;
`failure_message` stands for `step.get("failure_details", {}).get("message")`. -/
structure RawStep where
  name : Option String
  status : Option String
  conclusion : Option String
  failure_message : Option String
deriving DecidableEq

/-- The first job of the `jobs` JSON array. -/
structure Job where
  runner_name : Option String
  runner_group_name : Option String
  started_at : Option String
  completed_at : Option String
  steps : List RawStep
  conclusion : Option String
deriving DecidableEq

structure StepData where
  name : String
  status : String
  conclusion : Option String
  error : Option String
deriving DecidableEq

/-- The dict `fetch_run_details` returns on success. -/
structure Details where
  actor : String
  duration : String
  steps : List StepData
  job_conclusion : Option String
deriving DecidableEq

/-- Observable requests issued against the CI provider, in program order. -/
inductive GatewayCall
  | workflowsFetch (repo : String)
  | runsFetch (repo : String) (workflowId : Nat)
  | detailFetch (repo : String) (runId : Nat)
  | repoGet (repo : String)
  | dispatchPost (repo : String) (workflowId : Nat) (ref : String)
  | rerunPost (repo : String) (runId : Nat)
deriving DecidableEq

/-- The CI provider boundary: a pure response for each request shape.  Read
responses carry the HTTP status and the parsed payload (meaningful on 200);
`repoResp` carries the optional `default_branch` field; write responses carry
status and body text. -/
structure Gateway where
  workflowsResp : String → Nat × List Workflow
  runsResp : String → Nat → Nat × List RawRun
  jobsResp : String → Nat → Nat × List Job
  repoResp : String → Nat × Option String
  dispatchResp : String → Nat → String → Nat × String
  rerunResp : String → Nat → Nat × String

/-- App state: the three collections with their widget selection indices, the
log pane contents, the run-list item labels, the token flag, and the
`_pending_action` attribute (initialised to `None` in `__init__` and never
written again anywhere in the source). -/
structure AppState where
  token : Bool
  repos : List String
  workflows : List Workflow
  runs : List Run
  runLabels : List String
  repoIndex : Option Nat
  workflowIndex : Option Nat
  runIndex : Option Nat
  logLines : List String
  pendingAction : Option Unit
deriving DecidableEq

/-! ## Collection loading (source lines 432-521) -/

def isPrefixList : List Char → List Char → Bool
  | [], _ => true
  | _ :: _, [] => false
  | a :: as, b :: bs => a = b && isPrefixList as bs

/-- Python `s.startswith(p)`. -/
def pyStartsWith (s p : String) : Bool := isPrefixList p.data s.data

/-- Placeholder run row installed by `load_runs` when no fetch can be made. -/
def noTokenRun : Run :=
  { id := 0, status := "error", name := "No token or error", created := none,
    log := "Cannot load runs." }

/-- Placeholder run row installed by `load_runs` on a non-200 response. -/
def errorLoadingRun (code : Nat) : Run :=
  { id := 0, status := "error", name := "Error loading runs", created := none,
    log := "HTTP " ++ toString code }

def noTokenWorkflow : Workflow := { id := 0, name := "No token or error" }

/-- Run-list item label, `f"{run.get('created', run['name'])} [{run['status']}]"`. -/
def runListLabel (r : Run) : String :=
  (r.created.getD r.name) ++ " [" ++ r.status ++ "]"

/-- A run entity built from one `workflow_runs` entry: the stored status is
the conclusion when truthy, else the in-progress status. -/
def mkRun (workflow_name : String) (r : RawRun) : Run :=
  let st := (truthyStr r.conclusion).getD r.status
  { id := r.id, status := st, name := workflow_name,
    created := some (r.created_at.getD "?"),
    log := "Run ID: " ++ toString r.id ++ "\nStatus: " ++ st }

/-- The run collection `load_runs` installs, together with the gateway calls
it makes: no call at all when there is no token, the repo is an error
placeholder, or the workflow id is the sentinel 0. -/
def runsResult (gw : Gateway) (token : Bool) (repo_name : String)
    (workflow_id : Nat) (workflow_name : String) :
    List Run × List GatewayCall :=
  if ¬ token ∨ pyStartsWith repo_name ("Error") ∨ workflow_id = 0 then
    ([noTokenRun], [])
  else
    let resp := gw.runsResp repo_name workflow_id
    if resp.1 = 200 then
      (resp.2.map (mkRun workflow_name), [GatewayCall.runsFetch repo_name workflow_id])
    else
      ([errorLoadingRun resp.1], [GatewayCall.runsFetch repo_name workflow_id])

/-- `update_log_view`: clear the log pane, then show the log of the run at
`run_index` when in range. -/
def update_log_view (st : AppState) (run_index : Nat) : AppState :=
  if h : run_index < st.runs.length then
    { st with logLines := [(st.runs.get ⟨run_index, h⟩).log] }
  else
    { st with logLines := [] }

/-- `load_runs`: replace the run collection (and the run-list labels the
widget mirror shows), then refresh the log view for run 0. -/
def load_runs (gw : Gateway) (st : AppState) (repo_name : String)
    (workflow_id : Nat) (workflow_name : String) :
    AppState × List GatewayCall :=
  let rc := runsResult gw st.token repo_name workflow_id workflow_name
  let st1 := { st with runs := rc.1, runLabels := rc.1.map runListLabel }
  (update_log_view st1 0, rc.2)

/-- The workflow collection `load_workflows` installs, with its gateway
calls. -/
def workflowsResult (gw : Gateway) (token : Bool) (repo_name : String) :
    List Workflow × List GatewayCall :=
  if ¬ token ∨ pyStartsWith repo_name ("Error") then
    ([noTokenWorkflow], [])
  else
    let resp := gw.workflowsResp repo_name
    if resp.1 = 200 then
      (resp.2, [GatewayCall.workflowsFetch repo_name])
    else
      ([{ id := 0, name := "Error: " ++ toString resp.1 }],
       [GatewayCall.workflowsFetch repo_name])

/-- `load_workflows`: replace the workflow collection, then (when it is
non-empty) auto-load the runs of workflow 0. -/
def load_workflows (gw : Gateway) (st : AppState) (repo_name : String) :
    AppState × List GatewayCall :=
  let wc := workflowsResult gw st.token repo_name
  let st1 := { st with workflows := wc.1 }
  match wc.1 with
  | [] => (st1, wc.2)
  | w :: _ =>
    let r := load_runs gw st1 repo_name w.id w.name
    (r.1, wc.2 ++ r.2)

/-! ## Detail aggregation (source lines 559-810) -/

/-- `job.get("runner_name") or job.get("runner_group_name") or "?"`. -/
def actorOf (job : Job) : String :=
  match truthyStr job.runner_name with
  | some s => s
  | none =>
    match truthyStr job.runner_group_name with
    | some s => s
    | none => "?"

/-- `fetch_run_details`: returns `none` (and makes no call) without a token;
otherwise fetches the job list and returns `none` on a non-200 response or an
empty job list, else the aggregate of the first job. -/
def fetch_run_details (gw : Gateway) (st : AppState) (repo_name : String)
    (run_id : Nat) : Option Details × List GatewayCall :=
  if ¬ st.token then (none, [])
  else
    let resp := gw.jobsResp repo_name run_id
    let calls := [GatewayCall.detailFetch repo_name run_id]
    if resp.1 ≠ 200 then (none, calls)
    else
      match resp.2 with
      | [] => (none, calls)
      | job :: _ =>
        (some
          { actor := actorOf job,
            duration := computeDuration job.started_at job.completed_at,
            steps := job.steps.map (fun s =>
              { name := s.name.getD "?", status := s.status.getD "?",
                conclusion := s.conclusion, error := s.failure_message }),
            job_conclusion := job.conclusion },
         calls)

/-- One rendered step line of the detail pane, including the emoji-stripped
name, the step classification and the optional failure message. -/
def stepLine (s : StepData) : String :=
  let name0 := remove_emojis s.name
  let name := if name0 = "" then "?" else name0
  let raw := (truthyStr s.conclusion).getD (if s.status = "" then "?" else s.status)
  let cl := classifyStep raw
  let base := "- " ++ name ++ ": [" ++ cl.1 ++ "]" ++ cl.2 ++ "[/]"
  match truthyStr s.error with
  | some e => base ++ " - [red]" ++ e ++ "[/]"
  | none => base

/-- The compact header line of the detail pane. -/
def headerLine (run_id : Nat) (cl : String × String) (actor duration : String) :
    String :=
  "[bold]Run ID:[/] " ++ toString run_id ++
  "    [bold]Status:[/] [" ++ cl.1 ++ "]" ++ cl.2 ++ "[/]" ++
  "    [bold]Actor:[/] " ++ actor ++
  "    [bold]Duration:[/] " ++ duration

/-- `show_detailed_log`: fetch the detail of the run at `run_index`, render
the header and step lines into the log pane, and back-propagate the freshest
status (the job conclusion, when truthy) into the stored run and its run-list
label.  Out of range, the source returns after clearing the log pane. -/
def show_detailed_log (gw : Gateway) (st : AppState) (run_index : Nat) :
    AppState × List GatewayCall :=
  if h : run_index < st.runs.length then
    let run := st.runs.get ⟨run_index, h⟩
    let repo_name : Option String :=
      match st.repoIndex with
      | some i => st.repos.get? i
      | none => none
    let run_id := run.id
    let raw_status0 := if run.status = "" then "?" else run.status
    let dres : Option Details × List GatewayCall :=
      match repo_name with
      | some rn =>
        if rn ≠ "" ∧ run_id ≠ 0 then fetch_run_details gw st rn run_id
        else (none, [])
      | none => (none, [])
    let details := dres.1
    let raw_status :=
      match details with
      | some d =>
        match truthyStr d.job_conclusion with
        | some c => c
        | none => raw_status0
      | none => raw_status0
    let cl := classifyRun raw_status
    let actor := match details with | some d => d.actor | none => "?"
    let duration := match details with | some d => d.duration | none => "?"
    let stepsLines : List String :=
      match details with
      | some d =>
        if d.steps ≠ [] then
          ["", "[bold underline]Steps[/bold underline]:"] ++ d.steps.map stepLine
        else ["", "[INFO] No step details available."]
      | none => ["", "[INFO] No step details available."]
    let urlLines : List String :=
      match repo_name with
      | some rn =>
        if rn ≠ "" ∧ run_id ≠ 0 then
          ["", String.mk (List.replicate 40 '─'),
           "[bold]Log URL:[/] https://github.com/" ++ rn ++ "/actions/runs/" ++
             toString run_id,
           "", "Copy and paste this URL into your browser."]
        else []
      | none => []
    let lines := headerLine run_id cl actor duration :: (stepsLines ++ urlLines)
    let label := (run.created.getD run.name) ++ " [" ++ raw_status ++ "]"
    ({ st with logLines := lines,
               runs := st.runs.set run_index { run with status := raw_status },
               runLabels := st.runLabels.set run_index label },
     dres.2)
  else
    ({ st with logLines := [] }, [])

/-! ## Selection cascade (source lines 523-552) -/

/-- The repo-list branch of `on_list_view_highlighted`: the widget already
holds the new index when the event fires, so the model records it, then
reloads the workflow level (which cascades into the run level).  An
out-of-range index would raise `IndexError` in the source; theorems only
consider in-range indices. -/
def selectRepo (gw : Gateway) (st : AppState) (idx : Nat) :
    AppState × List GatewayCall :=
  let st1 := { st with repoIndex := some idx }
  load_workflows gw st1 (st1.repos.getD idx "")

/-- The full observable cascade of a repository selection: the handler body
above, followed by the run-list highlight event that the rebuilt run list
raises, which the app handles by showing the detailed log of run 0
(`on_list_view_highlighted`, run-list branch).  The run list is rebuilt
exactly when `load_workflows` found a non-empty workflow collection and so
chained into `load_runs`. -/
def selectRepoCascade (gw : Gateway) (st : AppState) (idx : Nat) :
    AppState × List GatewayCall :=
  let r1 := selectRepo gw st idx
  if r1.1.workflows ≠ [] then
    let r2 := show_detailed_log gw r1.1 0
    (r2.1, r1.2 ++ r2.2)
  else r1

/-! ## Mutating actions (source lines 258-295, 677-730, 812-860) -/

/-- `_do_trigger_workflow`: resolve the default branch (falling back to
"main"), post the dispatch, and on an accepted status refresh the run level
for the currently highlighted workflow. -/
def do_trigger_workflow (gw : Gateway) (st : AppState) (repo_name : String)
    (workflow_id : Nat) (workflow_name : String) :
    AppState × List GatewayCall :=
  if ¬ st.token then
    ({ st with logLines := st.logLines ++
        ["[ERROR] GITHUB_TOKEN is not configured; cannot trigger."] }, [])
  else
    let st1 := { st with logLines := st.logLines ++
      ["[ACTION] Triggering workflow '" ++ workflow_name ++ "' for repo '" ++
        repo_name ++ "'..."] }
    let rresp := gw.repoResp repo_name
    let default_ref := if rresp.1 = 200 then rresp.2.getD "main" else "main"
    let dresp := gw.dispatchResp repo_name workflow_id default_ref
    let calls := [GatewayCall.repoGet repo_name,
                  GatewayCall.dispatchPost repo_name workflow_id default_ref]
    if dresp.1 = 200 ∨ dresp.1 = 201 ∨ dresp.1 = 202 ∨ dresp.1 = 204 then
      let st2 := { st1 with logLines := st1.logLines ++
        ["[INFO] Workflow dispatch accepted by GitHub."] }
      match st2.workflowIndex with
      | some wi =>
        if h : wi < st2.workflows.length then
          let wf := st2.workflows.get ⟨wi, h⟩
          let r := load_runs gw st2 repo_name wf.id wf.name
          (r.1, calls ++ r.2)
        else (st2, calls)
      | none => (st2, calls)
    else
      ({ st1 with logLines := st1.logLines ++
          ["[ERROR] Failed to trigger workflow: HTTP " ++ toString dresp.1 ++
            " - " ++ dresp.2] }, calls)

/-- `action_trigger_workflow` (key binding `t`): guard against missing
selection and against the sentinel workflow id, then run the dispatch task.
The task created by `asyncio.create_task` runs to completion here, matching
the single-threaded cooperative scheduling of the source. -/
def action_trigger_workflow (gw : Gateway) (st : AppState) :
    AppState × List GatewayCall :=
  match st.repoIndex, st.workflowIndex with
  | some ri, some wi =>
    if st.repos = [] ∨ st.workflows = [] then
      ({ st with logLines := st.logLines ++
          ["[WARN] No repository or workflow selected."] }, [])
    else
      let repo_name := st.repos.getD ri ""
      let workflow := st.workflows.getD wi noTokenWorkflow
      if workflow.id = 0 then
        ({ st with logLines := st.logLines ++
            ["[WARN] Selected workflow cannot be triggered."] }, [])
      else
        do_trigger_workflow gw st repo_name workflow.id workflow.name
  | _, _ =>
    ({ st with logLines := st.logLines ++
        ["[WARN] No repository or workflow selected."] }, [])

/-- `_do_rerun_job`: post the rerun for the given run and on an accepted
status refresh the run level for the currently highlighted workflow. -/
def do_rerun_job (gw : Gateway) (st : AppState) (run : Run) :
    AppState × List GatewayCall :=
  if ¬ st.token then
    ({ st with logLines := st.logLines ++
        ["[ERROR] GITHUB_TOKEN is not configured; cannot re-run."] }, [])
  else
    match st.repoIndex with
    | none =>
      ({ st with logLines := st.logLines ++
          ["[WARN] No repository selected for re-run."] }, [])
    | some ri =>
      if st.repos = [] then
        ({ st with logLines := st.logLines ++
            ["[WARN] No repository selected for re-run."] }, [])
      else
        let repo_name := st.repos.getD ri ""
        if run.id = 0 then
          ({ st with logLines := st.logLines ++
              ["[WARN] Selected run has no valid ID."] }, [])
        else
          let st1 := { st with logLines := st.logLines ++
            ["[ACTION] Requesting re-run for workflow run " ++ toString run.id ++
              " in '" ++ repo_name ++ "'..."] }
          let resp := gw.rerunResp repo_name run.id
          let calls := [GatewayCall.rerunPost repo_name run.id]
          if resp.1 = 200 ∨ resp.1 = 201 ∨ resp.1 = 202 ∨ resp.1 = 204 then
            let st2 := { st1 with logLines := st1.logLines ++
              ["[INFO] Re-run request accepted by GitHub."] }
            match st2.workflowIndex with
            | some wi =>
              if h : wi < st2.workflows.length then
                let wf := st2.workflows.get ⟨wi, h⟩
                let r := load_runs gw st2 repo_name wf.id wf.name
                (r.1, calls ++ r.2)
              else (st2, calls)
            | none => (st2, calls)
          else
            ({ st1 with logLines := st1.logLines ++
                ["[ERROR] Failed to request re-run: HTTP " ++ toString resp.1 ++
                  " - " ++ resp.2] }, calls)

/-- `action_rerun_job` (key binding `r`). -/
def action_rerun_job (gw : Gateway) (st : AppState) :
    AppState × List GatewayCall :=
  match st.runIndex with
  | none =>
    ({ st with logLines := st.logLines ++
        ["[WARN] No run selected to re-run."] }, [])
  | some ri =>
    if st.runs = [] then
      ({ st with logLines := st.logLines ++
          ["[WARN] No run selected to re-run."] }, [])
    else
      do_rerun_job gw st (st.runs.getD ri noTokenRun)

/-! ## Trace classification helpers -/

/-- The position of a read request in the spec's cascade order; writes are
not part of the read cascade. -/
def fetchPhase : GatewayCall → Nat
  | GatewayCall.workflowsFetch _ => 0
  | GatewayCall.runsFetch _ _ => 1
  | GatewayCall.detailFetch _ _ => 2
  | _ => 3

def isRunsFetch : GatewayCall → Bool
  | GatewayCall.runsFetch _ _ => true
  | _ => false

def isWriteCall : GatewayCall → Bool
  | GatewayCall.dispatchPost _ _ _ => true
  | GatewayCall.rerunPost _ _ => true
  | _ => false

/-! ## Helper lemmas -/

theorem toNat_ofNat_valid (n : Nat) (h : n < 55296) : (Char.ofNat n).toNat = n := by
  have hv : n.isValidChar := Or.inl (by omega)
  simp [Char.ofNat, hv, Char.toNat, Char.ofNatAux, UInt32.toNat, BitVec.toNat_ofNatLt]

theorem asciiUpper_asciiLower (c : Char) :
    asciiUpper (asciiLower c) = asciiUpper c := by
  by_cases h : 65 ≤ c.toNat ∧ c.toNat ≤ 90
  · have h2 : (Char.ofNat (c.toNat + 32)).toNat = c.toNat + 32 :=
      toNat_ofNat_valid _ (by omega)
    have hL : asciiLower c = Char.ofNat (c.toNat + 32) := by
      unfold asciiLower; rw [if_pos h]
    have hR : asciiUpper c = c := by
      unfold asciiUpper; rw [if_neg (by omega : ¬ (97 ≤ c.toNat ∧ c.toNat ≤ 122))]
    rw [hL, hR]
    unfold asciiUpper
    rw [h2, if_pos (by omega : 97 ≤ c.toNat + 32 ∧ c.toNat + 32 ≤ 122)]
    have h3 : c.toNat + 32 - 32 = c.toNat := by omega
    rw [h3, Char.ofNat_toNat]
  · have hL : asciiLower c = c := by unfold asciiLower; rw [if_neg h]
    rw [hL]

theorem map_asciiUpper_asciiLower (l : List Char) :
    (l.map asciiLower).map asciiUpper = l.map asciiUpper := by
  induction l with
  | nil => rfl
  | cons c t ih => simp [asciiUpper_asciiLower, ih]

theorem upperStr_lowerStr (s : String) : upperStr (lowerStr s) = upperStr s :=
  congrArg String.mk (map_asciiUpper_asciiLower s.data)

theorem mem_of_dropWhile {p : Char → Bool} {l : List Char} {c : Char}
    (h : c ∈ l.dropWhile p) : c ∈ l := by
  induction l with
  | nil => simp [List.dropWhile] at h
  | cons a t ih =>
    by_cases hp : p a
    · rw [List.dropWhile_cons_of_pos hp] at h
      exact List.mem_cons_of_mem _ (ih h)
    · rw [List.dropWhile_cons_of_neg hp] at h
      exact h

theorem mem_of_pyStripChars {l : List Char} {c : Char}
    (h : c ∈ pyStripChars l) : c ∈ l := by
  unfold pyStripChars at h
  rw [List.mem_reverse] at h
  have h1 := mem_of_dropWhile h
  rw [List.mem_reverse] at h1
  exact mem_of_dropWhile h1

/-! ## Claims about the status classifier -/

/-- C1 counterexample: the source classification has no PENDING display
bucket.  At the concrete raw status "queued" the spec's table (§4.1) yields
PENDING, but the classification used for the run header and for each step
yields the cyan fallback bucket (UNKNOWN), refuting the claim that these
statuses land in a distinct PENDING bucket. -/
theorem C1_pending_counterexample :
    specClassifyKind ("queued") = StatusKind.PENDING ∧
    kindOf (classifyRun ("queued")) = StatusKind.UNKNOWN ∧
    kindOf (classifyStep ("queued")) = StatusKind.UNKNOWN ∧
    kindOf (classifyRun ("queued")) ≠ StatusKind.PENDING := by
  decide

/-- C1 amended: for every raw status string whose lower-casing is one of
queued / in_progress / waiting / requested / pending, the classification
used for the run header and for each step yields the cyan fallback bucket
(UNKNOWN kind, label = the upper-cased raw string) — the source has no
distinct PENDING bucket. -/
theorem C1_pending_statuses_fall_back (raw : String)
    (h : lowerStr raw = "queued" ∨ lowerStr raw = "in_progress" ∨
      lowerStr raw = "waiting" ∨ lowerStr raw = "requested" ∨
      lowerStr raw = "pending") :
    kindOf (classifyRun raw) = StatusKind.UNKNOWN ∧
    kindOf (classifyStep raw) = StatusKind.UNKNOWN ∧
    (classifyRun raw).1 = "cyan" ∧
    (classifyRun raw).2 = upperStr raw := by
  rcases h with h | h | h | h | h <;>
    simp [classifyRun, classifyStep, kindOf, h]

/-- Witness for the C1 amended theorem at the concrete input "In_Progress". -/
theorem C1_pending_statuses_fall_back_witness :
    kindOf (classifyRun ("In_Progress")) = StatusKind.UNKNOWN ∧
    kindOf (classifyStep ("In_Progress")) = StatusKind.UNKNOWN ∧
    (classifyRun ("In_Progress")).1 = "cyan" ∧
    (classifyRun ("In_Progress")).2 = upperStr ("In_Progress") :=
  C1_pending_statuses_fall_back ("In_Progress") (Or.inr (Or.inl (by decide)))

/-- C6: the classifier's bucket structure, case-insensitively: success and
completed map to SUCCESS with fixed label "SUCCESS"; failure, failed,
cancelled and timed_out map to FAILURE with fixed label "FAILURE"; neutral,
skipped and action_required map to WARNING with label the upper-cased raw
string with underscores replaced by spaces; every other string maps to the
UNKNOWN fallback; the classification is a total function by construction and
the step-level classification agrees with the run-level one everywhere. -/
theorem C6_classifier_contract (raw : String) :
    ((lowerStr raw = "success" ∨ lowerStr raw = "completed") →
      kindOf (classifyRun raw) = StatusKind.SUCCESS ∧
      (classifyRun raw).2 = "SUCCESS") ∧
    ((lowerStr raw = "failure" ∨ lowerStr raw = "failed" ∨
        lowerStr raw = "cancelled" ∨ lowerStr raw = "timed_out") →
      kindOf (classifyRun raw) = StatusKind.FAILURE ∧
      (classifyRun raw).2 = "FAILURE") ∧
    ((lowerStr raw = "neutral" ∨ lowerStr raw = "skipped" ∨
        lowerStr raw = "action_required") →
      kindOf (classifyRun raw) = StatusKind.WARNING ∧
      (classifyRun raw).2 = replaceUnderscore (upperStr raw)) ∧
    ((lowerStr raw ≠ "success" ∧ lowerStr raw ≠ "completed" ∧
        lowerStr raw ≠ "failure" ∧ lowerStr raw ≠ "failed" ∧
        lowerStr raw ≠ "cancelled" ∧ lowerStr raw ≠ "timed_out" ∧
        lowerStr raw ≠ "neutral" ∧ lowerStr raw ≠ "skipped" ∧
        lowerStr raw ≠ "action_required") →
      kindOf (classifyRun raw) = StatusKind.UNKNOWN) ∧
    classifyStep raw = classifyRun raw := by
  refine ⟨?_, ?_, ?_, ?_, ?_⟩
  · rintro (h | h) <;> simp [classifyRun, kindOf, h]
  · rintro (h | h | h | h) <;> simp [classifyRun, kindOf, h]
  · rintro (h | h | h) <;>
    · have h2 : upperStr raw = upperStr (lowerStr raw) := (upperStr_lowerStr raw).symm
      rw [h] at h2
      simp [classifyRun, kindOf, h, h2]
      decide
  · intro h
    obtain ⟨h1, h2, h3, h4, h5, h6, h7, h8, h9⟩ := h
    simp [classifyRun, kindOf, h1, h2, h3, h4, h5, h6, h7, h8, h9]
  · rfl

/-- Witness for C6 at concrete inputs from each bucket. -/
theorem C6_classifier_contract_witness :
    (kindOf (classifyRun ("Completed")) = StatusKind.SUCCESS ∧
      (classifyRun ("Completed")).2 = "SUCCESS") ∧
    (kindOf (classifyRun ("timed_out")) = StatusKind.FAILURE ∧
      (classifyRun ("timed_out")).2 = "FAILURE") ∧
    (kindOf (classifyRun ("Action_Required")) = StatusKind.WARNING ∧
      (classifyRun ("Action_Required")).2 =
        replaceUnderscore (upperStr ("Action_Required"))) ∧
    kindOf (classifyRun ("mystery_status")) = StatusKind.UNKNOWN :=
  ⟨(C6_classifier_contract ("Completed")).1 (Or.inr (by decide)),
   (C6_classifier_contract ("timed_out")).2.1 (Or.inr (Or.inr (Or.inr (by decide)))),
   (C6_classifier_contract ("Action_Required")).2.2.1 (Or.inr (Or.inr (by decide))),
   (C6_classifier_contract ("mystery_status")).2.2.2.1
     (by refine ⟨?_, ?_, ?_, ?_, ?_, ?_, ?_, ?_, ?_⟩ <;> decide)⟩

/-! ## Claims about emoji stripping and duration formatting -/

/-- C9: the step name "🚀 Deploy" is rendered as "Deploy" after emoji
stripping, and in general no character of an emoji-stripped string lies in
any of the common emoji ranges the filter removes. -/
theorem C9_emoji_stripping (t : String) (c : Char) :
    remove_emojis ("🚀 Deploy") = "Deploy" ∧
    (c ∈ (remove_emojis t).data → isEmojiChar c = false) := by
  refine ⟨by decide, fun h => ?_⟩
  unfold remove_emojis at h
  have h1 : c ∈ t.data.filter (fun c => ! isEmojiChar c) := mem_of_pyStripChars h
  have h2 := List.of_mem_filter h1
  simpa using h2

/-- Witness for C9 at the concrete scenario input. -/
theorem C9_emoji_stripping_witness :
    remove_emojis ("🚀 Deploy") = "Deploy" ∧ isEmojiChar 'D' = false :=
  ⟨(C9_emoji_stripping ("🚀 Deploy") 'D').1,
   (C9_emoji_stripping ("🚀 Deploy") 'D').2 (by decide)⟩

/-- C7: the concrete round-trip job with `started_at` 2024-01-01T00:00:00Z
and `completed_at` 2024-01-01T00:01:05Z gets duration "1m 5s"; in general,
when both timestamps parse (with matching awareness) and the completion is
not earlier than the start, the duration is the difference in whole seconds
formatted "{m}m {s}s" when minutes are nonzero and "{s}s" otherwise; a
missing (`None`) or malformed timestamp gives "?" without failing. -/
theorem C7_duration_contract :
    computeDuration (some ("2024-01-01T00:00:00Z")) (some ("2024-01-01T00:01:05Z"))
      = "1m 5s" ∧
    (∀ (s c : String) (t1 t2 : ParsedTs), pyFromIso s = some t1 →
      pyFromIso c = some t2 → t1.aware = t2.aware → t1.sec ≤ t2.sec →
      computeDuration (some s) (some c) =
        (if (t2.sec - t1.sec).toNat / 60 ≠ 0 then
          toString ((t2.sec - t1.sec).toNat / 60) ++ "m " ++
            toString ((t2.sec - t1.sec).toNat % 60) ++ "s"
         else toString ((t2.sec - t1.sec).toNat % 60) ++ "s")) ∧
    (∀ (s c : String), pyFromIso s = none →
      computeDuration (some s) (some c) = "?") ∧
    (∀ (s c : String), pyFromIso c = none →
      computeDuration (some s) (some c) = "?") ∧
    (∀ o : Option String, computeDuration none o = "?") ∧
    (∀ o : Option String, computeDuration o none = "?") := by
  refine ⟨by decide, ?_, ?_, ?_, ?_, ?_⟩
  · intro s c t1 t2 h1 h2 haw hle
    have hs : s ≠ "" := by
      intro he; rw [he] at h1; exact Option.noConfusion ((by decide : pyFromIso "" = none) ▸ h1)
    have hc : c ≠ "" := by
      intro he; rw [he] at h2; exact Option.noConfusion ((by decide : pyFromIso "" = none) ▸ h2)
    have hmax : max (t2.sec - t1.sec) 0 = t2.sec - t1.sec := by omega
    simp only [computeDuration, hs, hc, or_self, if_false, h1, h2, haw,
      eq_self_iff_true, if_true, hmax, false_or]
  · intro s c h1
    by_cases hs : s = "" <;> by_cases hc : c = "" <;>
      simp [computeDuration, hs, hc, h1]
  · intro s c h2
    by_cases hs : s = "" <;> by_cases hc : c = "" <;>
      simp [computeDuration, hs, hc, h2]
  · intro o; rfl
  · intro o; cases o <;> rfl

/-- Witness for C7 at the concrete scenario timestamps. -/
theorem C7_duration_contract_witness :
    computeDuration (some ("2024-01-01T00:00:00Z")) (some ("2024-01-01T00:01:05Z"))
        = "1m 5s" ∧
    computeDuration (some ("2024-01-01T00:00:00Z")) (some ("2024-01-01T00:02:03Z"))
        = "2m 3s" ∧
    computeDuration (some ("not a timestamp")) (some ("2024-01-01T00:01:05Z")) = "?" ∧
    computeDuration none (some ("2024-01-01T00:01:05Z")) = "?" :=
  ⟨C7_duration_contract.1,
   (C7_duration_contract.2.1 ("2024-01-01T00:00:00Z") ("2024-01-01T00:02:03Z")
      ⟨63839664000, true⟩ ⟨63839664123, true⟩ (by decide) (by decide) rfl
      (by decide)).trans (by decide),
   C7_duration_contract.2.2.1 ("not a timestamp") ("2024-01-01T00:01:05Z") (by decide),
   C7_duration_contract.2.2.2.2.1 (some ("2024-01-01T00:01:05Z"))⟩

/-- C10: when the completion timestamp parses to a time strictly earlier than
the start timestamp, the computed duration is clamped to zero and rendered
"0s"; the formatting is total and never produces a negative rendering. -/
theorem C10_negative_duration_clamped (s c : String) (t1 t2 : ParsedTs)
    (h1 : pyFromIso s = some t1) (h2 : pyFromIso c = some t2)
    (haw : t1.aware = t2.aware) (hlt : t2.sec < t1.sec) :
    computeDuration (some s) (some c) = "0s" := by
  have hs : s ≠ "" := by
    intro he; rw [he] at h1; exact Option.noConfusion ((by decide : pyFromIso "" = none) ▸ h1)
  have hc : c ≠ "" := by
    intro he; rw [he] at h2; exact Option.noConfusion ((by decide : pyFromIso "" = none) ▸ h2)
  have hmax : max (t2.sec - t1.sec) 0 = 0 := by omega
  simp [computeDuration, hs, hc, h1, h2, haw, hmax]
  decide

/-- Witness for C10: a job completed 65 seconds "before" it started. -/
theorem C10_negative_duration_clamped_witness :
    computeDuration (some ("2024-01-01T00:01:05Z")) (some ("2024-01-01T00:00:00Z"))
      = "0s" :=
  C10_negative_duration_clamped ("2024-01-01T00:01:05Z") ("2024-01-01T00:00:00Z")
    ⟨63839664065, true⟩ ⟨63839664000, true⟩ (by decide) (by decide) rfl (by decide)

/-! ## Concrete sample data for witnesses and counterexamples -/

def sampleJob : Job :=
  { runner_name := some "runner-1", runner_group_name := none,
    started_at := some "2024-01-01T00:00:00Z",
    completed_at := some "2024-01-01T00:01:05Z",
    steps := [{ name := some "🚀 Deploy", status := some "completed",
                conclusion := some "success", failure_message := none }],
    conclusion := some "success" }

def sampleGateway : Gateway :=
  { workflowsResp := fun _ => (200, [{ id := 7, name := "CI" }]),
    runsResp := fun _ _ =>
      (200, [{ id := 42, status := "in_progress", conclusion := some "success",
               created_at := some "2024-01-01T00:00:00Z" }]),
    jobsResp := fun _ _ => (200, [sampleJob]),
    repoResp := fun _ => (200, some "main"),
    dispatchResp := fun _ _ _ => (204, ""),
    rerunResp := fun _ _ => (201, "") }

def sampleRun : Run :=
  { id := 42, status := "queued", name := "CI",
    created := some "2024-01-01T00:00:00Z",
    log := "Run ID: 42\nStatus: queued" }

def sampleState : AppState :=
  { token := true, repos := ["acme/app"], workflows := [{ id := 7, name := "CI" }],
    runs := [sampleRun], runLabels := [runListLabel sampleRun],
    repoIndex := some 0, workflowIndex := some 0, runIndex := some 0,
    logLines := [], pendingAction := none }

/-- A state whose selected workflow is the sentinel placeholder. -/
def sentinelState : AppState :=
  { sampleState with workflows := [{ id := 0, name := "Error: 403" }] }

/-- A gateway whose workflow-list fetch fails with HTTP 403. -/
def gw403 : Gateway :=
  { sampleGateway with workflowsResp := fun _ => (403, []) }

/-! ## Claims about the mutating actions -/

theorem load_runs_pendingAction (gw : Gateway) (st : AppState) (r : String)
    (w : Nat) (n : String) :
    (load_runs gw st r w n).1.pendingAction = st.pendingAction := by
  unfold load_runs update_log_view
  dsimp only
  split <;> rfl

/-- The dispatch task always posts the dispatch request (when a token is
configured) and never touches `_pending_action`. -/
theorem do_trigger_dispatches (gw : Gateway) (st : AppState) (repo : String)
    (wid : Nat) (wname : String) (htok : st.token = true) :
    (∃ ref, GatewayCall.dispatchPost repo wid ref ∈
      (do_trigger_workflow gw st repo wid wname).2) ∧
    (do_trigger_workflow gw st repo wid wname).1.pendingAction = st.pendingAction := by
  unfold do_trigger_workflow
  simp only [htok, not_true, if_false, Bool.not_eq_true, ite_false]
  constructor
  · refine ⟨(if (gw.repoResp repo).1 = 200 then (gw.repoResp repo).2.getD "main"
      else "main"), ?_⟩
    generalize (if (gw.repoResp repo).1 = 200 then (gw.repoResp repo).2.getD "main"
      else "main") = ref
    split
    · split
      · split
        · simp
        · simp
      · simp
    · simp
  · generalize (if (gw.repoResp repo).1 = 200 then (gw.repoResp repo).2.getD "main"
      else "main") = ref
    split
    · split
      · split
        · rw [load_runs_pendingAction]
        · rfl
      · rfl
    · rfl

/-- The re-run task always posts the rerun request for a run with a valid id
(when a token is configured and a repository is selected) and never touches
`_pending_action`. -/
theorem do_rerun_posts (gw : Gateway) (st : AppState) (run : Run) (ri : Nat)
    (htok : st.token = true) (hri : st.repoIndex = some ri)
    (hrepos : st.repos ≠ []) (hid : run.id ≠ 0) :
    GatewayCall.rerunPost (st.repos.getD ri "") run.id ∈
      (do_rerun_job gw st run).2 ∧
    (do_rerun_job gw st run).1.pendingAction = st.pendingAction := by
  unfold do_rerun_job
  simp only [htok, not_true, if_false, Bool.not_eq_true, ite_false]
  rw [hri]
  dsimp only
  rw [if_neg hrepos, if_neg hid]
  constructor
  · split
    · split
      · split
        · simp
        · simp
      · simp
    · simp
  · split
    · split
      · split
        · rw [load_runs_pendingAction]
        · rfl
      · rfl
    · rfl

/-- C5: invoking the trigger action on a workflow whose id is the sentinel 0
never produces a dispatch request: no gateway call is made at all, and the
only state change is the warning report in the log pane (in particular no
pending action is constructed). -/
theorem C5_sentinel_never_dispatched (gw : Gateway) (st : AppState) (ri wi : Nat)
    (hri : st.repoIndex = some ri) (hwi : st.workflowIndex = some wi)
    (hrepos : st.repos ≠ []) (hwfs : st.workflows ≠ [])
    (hwir : wi < st.workflows.length)
    (hid : (st.workflows.getD wi noTokenWorkflow).id = 0) :
    (action_trigger_workflow gw st).2 = [] ∧
    (action_trigger_workflow gw st).1 =
      { st with logLines := st.logLines ++
          ["[WARN] Selected workflow cannot be triggered."] } := by
  unfold action_trigger_workflow
  rw [hri, hwi]
  dsimp only
  rw [if_neg (by simp [hrepos, hwfs] : ¬ (st.repos = [] ∨ st.workflows = []))]
  rw [if_pos hid]
  exact ⟨rfl, rfl⟩

/-- Witness for C5: the placeholder workflow of `sentinelState`. -/
theorem C5_sentinel_never_dispatched_witness :
    (action_trigger_workflow sampleGateway sentinelState).2 = [] ∧
    (action_trigger_workflow sampleGateway sentinelState).1 =
      { sentinelState with logLines := sentinelState.logLines ++
          ["[WARN] Selected workflow cannot be triggered."] } :=
  C5_sentinel_never_dispatched sampleGateway sentinelState 0 0 rfl rfl
    (by decide) (by decide) (by decide) (by decide)

/-- C2 counterexample: on a valid (non-placeholder) target the CIGateway
write executes immediately as part of the same key action — the trigger
request posts the dispatch (and the rerun request posts the rerun) with no
intervening confirm event, and no pending action is ever constructed
(`_pending_action` remains `None`).  This refutes the claimed
IDLE → AWAITING_CONFIRM → IDLE confirmation machine, which does not exist in
the source. -/
theorem C2_no_confirmation_counterexample :
    GatewayCall.dispatchPost ("acme/app") 7 ("main") ∈
      (action_trigger_workflow sampleGateway sampleState).2 ∧
    (action_trigger_workflow sampleGateway sampleState).1.pendingAction = none ∧
    GatewayCall.rerunPost ("acme/app") 42 ∈
      (action_rerun_job sampleGateway sampleState).2 ∧
    (action_rerun_job sampleGateway sampleState).1.pendingAction = none := by
  decide

/-- C2 amended: a request to trigger a workflow or re-run a job on a valid
(non-placeholder) target executes the CIGateway write immediately within the
same action, with no confirmation step: there is no AWAITING_CONFIRM state,
no confirm or cancel event, and `_pending_action` is never written. -/
theorem C2_writes_execute_immediately (gw : Gateway) (st : AppState)
    (ri wi : Nat) (htok : st.token = true)
    (hri : st.repoIndex = some ri) (hwi : st.workflowIndex = some wi)
    (hrepos : st.repos ≠ []) (hwfs : st.workflows ≠ [])
    (hid : (st.workflows.getD wi noTokenWorkflow).id ≠ 0) :
    (∃ ref, GatewayCall.dispatchPost (st.repos.getD ri "")
        ((st.workflows.getD wi noTokenWorkflow).id) ref ∈
      (action_trigger_workflow gw st).2) ∧
    (action_trigger_workflow gw st).1.pendingAction = st.pendingAction ∧
    (∀ rj : Nat, st.runIndex = some rj → (st.runs.getD rj noTokenRun).id ≠ 0 →
      GatewayCall.rerunPost (st.repos.getD ri "") ((st.runs.getD rj noTokenRun).id) ∈
        (action_rerun_job gw st).2 ∧
      (action_rerun_job gw st).1.pendingAction = st.pendingAction) := by
  have hmain : action_trigger_workflow gw st =
      do_trigger_workflow gw st (st.repos.getD ri "")
        ((st.workflows.getD wi noTokenWorkflow).id)
        ((st.workflows.getD wi noTokenWorkflow).name) := by
    unfold action_trigger_workflow
    rw [hri, hwi]
    dsimp only
    rw [if_neg (by simp [hrepos, hwfs] : ¬ (st.repos = [] ∨ st.workflows = []))]
    rw [if_neg hid]
  refine ⟨?_, ?_, ?_⟩
  · rw [hmain]
    exact (do_trigger_dispatches gw st (st.repos.getD ri "")
      ((st.workflows.getD wi noTokenWorkflow).id)
      ((st.workflows.getD wi noTokenWorkflow).name) htok).1
  · rw [hmain]
    exact (do_trigger_dispatches gw st (st.repos.getD ri "")
      ((st.workflows.getD wi noTokenWorkflow).id)
      ((st.workflows.getD wi noTokenWorkflow).name) htok).2
  · intro rj hrj hidr
    have hruns : st.runs ≠ [] := by
      intro hne
      rw [hne] at hidr
      cases rj <;> exact hidr rfl
    have hmain2 : action_rerun_job gw st =
        do_rerun_job gw st (st.runs.getD rj noTokenRun) := by
      unfold action_rerun_job
      rw [hrj]
      dsimp only
      rw [if_neg hruns]
    rw [hmain2]
    exact do_rerun_posts gw st (st.runs.getD rj noTokenRun) ri htok hri hrepos hidr

/-- Witness for the C2 amended theorem on the sample state. -/
theorem C2_writes_execute_immediately_witness :
    (∃ ref, GatewayCall.dispatchPost ("acme/app") 7 ref ∈
      (action_trigger_workflow sampleGateway sampleState).2) ∧
    GatewayCall.rerunPost ("acme/app") 42 ∈
      (action_rerun_job sampleGateway sampleState).2 :=
  ⟨(C2_writes_execute_immediately sampleGateway sampleState 0 0 rfl rfl rfl
      (by decide) (by decide) (by decide)).1,
   ((C2_writes_execute_immediately sampleGateway sampleState 0 0 rfl rfl rfl
      (by decide) (by decide) (by decide)).2.2 0 rfl (by decide)).1⟩

/-! ## Claims about workflow-fetch failure handling -/

/-- C4 counterexample: when the workflow-list fetch returns HTTP 403, the
workflow collection does become the single placeholder {id 0, "Error: 403"}
and no run-level fetch is issued, but the run collection is NOT left
unchanged: the chained `load_runs` call (invoked with the placeholder's
sentinel id 0) replaces it with the single placeholder run row.  Here the
prior state held a real run, and after the failing reload it does not. -/
theorem C4_error_placeholder_counterexample :
    (load_workflows gw403 sampleState ("acme/app")).1.workflows =
      [{ id := 0, name := "Error: 403" }] ∧
    (load_workflows gw403 sampleState ("acme/app")).2 =
      [GatewayCall.workflowsFetch ("acme/app")] ∧
    (load_workflows gw403 sampleState ("acme/app")).1.runs ≠ sampleState.runs ∧
    (load_workflows gw403 sampleState ("acme/app")).1.runs = [noTokenRun] := by
  decide

/-- C4 amended: when the workflow-list fetch for a repository returns a
non-200 HTTP status, the workflow collection becomes the single placeholder
{id 0, name "Error: {status}"}, the only gateway call of the reload is the
workflow fetch itself (no run-level fetch is issued), and the run collection
is replaced by the single placeholder run row (id 0, status "error"). -/
theorem C4_error_placeholder (gw : Gateway) (st : AppState) (repo : String)
    (htok : st.token = true) (herr : pyStartsWith repo ("Error") = false)
    (hcode : (gw.workflowsResp repo).1 ≠ 200) :
    (load_workflows gw st repo).1.workflows =
      [{ id := 0, name := "Error: " ++ toString (gw.workflowsResp repo).1 }] ∧
    (load_workflows gw st repo).2 = [GatewayCall.workflowsFetch repo] ∧
    (load_workflows gw st repo).1.runs = [noTokenRun] := by
  have hwf : workflowsResult gw st.token repo =
      ([{ id := 0, name := "Error: " ++ toString (gw.workflowsResp repo).1 }],
       [GatewayCall.workflowsFetch repo]) := by
    unfold workflowsResult
    dsimp only
    rw [if_neg (by simp [htok, herr]), if_neg hcode]
  unfold load_workflows
  dsimp only
  rw [hwf]
  dsimp only
  unfold load_runs runsResult
  dsimp only
  rw [if_pos (Or.inr (Or.inr rfl))]
  dsimp only
  unfold update_log_view
  dsimp only
  split <;> exact ⟨rfl, rfl, rfl⟩

/-- Witness for the C4 amended theorem: the concrete 403 scenario. -/
theorem C4_error_placeholder_witness :
    (load_workflows gw403 sampleState ("acme/app")).1.workflows =
      [{ id := 0, name := "Error: " ++ toString (gw403.workflowsResp ("acme/app")).1 }] ∧
    (load_workflows gw403 sampleState ("acme/app")).2 =
      [GatewayCall.workflowsFetch ("acme/app")] ∧
    (load_workflows gw403 sampleState ("acme/app")).1.runs = [noTokenRun] :=
  C4_error_placeholder gw403 sampleState ("acme/app") rfl (by decide) (by decide)

/-! ## Claim about detail-pane status back-propagation -/

/-- C8: after a detail load in which the fetched first job carries a truthy
(non-null, non-empty) conclusion, the run entity stored at the selected index
has exactly that conclusion as its status (overriding the list-level status),
the run-list label at that index shows the same status string, and the
detail-pane header line classifies the same status; the only gateway call of
the whole load is the single read of the job list — no write occurs. -/
theorem C8_status_back_propagation (gw : Gateway) (st : AppState)
    (run_index ri : Nat) (rn : String) (job : Job) (c : String) (rest : List Job)
    (hrun : run_index < st.runs.length)
    (hri : st.repoIndex = some ri)
    (hrn : st.repos.get? ri = some rn) (hrne : rn ≠ "")
    (htok : st.token = true)
    (hid : (st.runs.get ⟨run_index, hrun⟩).id ≠ 0)
    (hjobs : gw.jobsResp rn (st.runs.get ⟨run_index, hrun⟩).id = (200, job :: rest))
    (hconc : job.conclusion = some c) (hc : c ≠ "") :
    (show_detailed_log gw st run_index).1.runs =
      st.runs.set run_index { st.runs.get ⟨run_index, hrun⟩ with status := c } ∧
    (show_detailed_log gw st run_index).1.logLines.head? =
      some (headerLine (st.runs.get ⟨run_index, hrun⟩).id (classifyRun c)
        (actorOf job) (computeDuration job.started_at job.completed_at)) ∧
    (show_detailed_log gw st run_index).1.runLabels =
      st.runLabels.set run_index
        (((st.runs.get ⟨run_index, hrun⟩).created.getD
            (st.runs.get ⟨run_index, hrun⟩).name) ++ " [" ++ c ++ "]") ∧
    (show_detailed_log gw st run_index).2 =
      [GatewayCall.detailFetch rn (st.runs.get ⟨run_index, hrun⟩).id] := by
  have hfrd : fetch_run_details gw st rn (st.runs.get ⟨run_index, hrun⟩).id =
      (some { actor := actorOf job,
              duration := computeDuration job.started_at job.completed_at,
              steps := job.steps.map (fun s =>
                { name := s.name.getD "?", status := s.status.getD "?",
                  conclusion := s.conclusion, error := s.failure_message }),
              job_conclusion := job.conclusion },
       [GatewayCall.detailFetch rn (st.runs.get ⟨run_index, hrun⟩).id]) := by
    unfold fetch_run_details
    simp only [htok, not_true, if_false, Bool.not_eq_true, ite_false]
    rw [hjobs]
    dsimp only
    rw [if_neg (show ¬ (200 : Nat) ≠ 200 from fun h => h rfl)]
  unfold show_detailed_log
  rw [dif_pos hrun]
  dsimp only
  rw [hri]
  dsimp only
  rw [hrn]
  dsimp only
  rw [if_pos ⟨hrne, hid⟩]
  rw [hfrd]
  dsimp only
  rw [hconc]
  unfold truthyStr
  dsimp only
  rw [if_neg hc]
  exact ⟨rfl, rfl, rfl, rfl⟩

/-- Witness for C8 on the sample state: the stale "queued" run is repaired to
the job conclusion "success". -/
theorem C8_status_back_propagation_witness :
    (show_detailed_log sampleGateway sampleState 0).1.runs =
      sampleState.runs.set 0 { sampleState.runs.get ⟨0, by decide⟩ with status := "success" } ∧
    (show_detailed_log sampleGateway sampleState 0).2 =
      [GatewayCall.detailFetch ("acme/app") 42] :=
  ⟨(C8_status_back_propagation sampleGateway sampleState 0 0 ("acme/app")
      sampleJob "success" [] (by decide) rfl rfl (by decide) rfl (by decide) rfl
      rfl (by decide)).1,
   (C8_status_back_propagation sampleGateway sampleState 0 0 ("acme/app")
      sampleJob "success" [] (by decide) rfl rfl (by decide) rfl (by decide) rfl
      rfl (by decide)).2.2.2⟩

/-! ## Claim about the repository-selection cascade -/

theorem workflowsResult_calls (gw : Gateway) (tk : Bool) (repo : String) :
    (workflowsResult gw tk repo).2 = [] ∨
    (workflowsResult gw tk repo).2 = [GatewayCall.workflowsFetch repo] := by
  unfold workflowsResult
  split
  · exact Or.inl rfl
  · dsimp only
    split
    · exact Or.inr rfl
    · exact Or.inr rfl

theorem runsResult_calls (gw : Gateway) (tk : Bool) (repo : String) (wid : Nat)
    (wname : String) :
    (runsResult gw tk repo wid wname).2 = [] ∨
    (runsResult gw tk repo wid wname).2 = [GatewayCall.runsFetch repo wid] := by
  unfold runsResult
  split
  · exact Or.inl rfl
  · dsimp only
    split
    · exact Or.inr rfl
    · exact Or.inr rfl

theorem load_runs_calls (gw : Gateway) (st : AppState) (repo : String)
    (wid : Nat) (wname : String) :
    (load_runs gw st repo wid wname).2 = (runsResult gw st.token repo wid wname).2 := rfl

theorem load_runs_workflows (gw : Gateway) (st : AppState) (repo : String)
    (wid : Nat) (wname : String) :
    (load_runs gw st repo wid wname).1.workflows = st.workflows := by
  unfold load_runs update_log_view
  dsimp only
  split <;> rfl

theorem show_detailed_log_workflows (gw : Gateway) (st : AppState) (i : Nat) :
    (show_detailed_log gw st i).1.workflows = st.workflows := by
  unfold show_detailed_log
  split <;> rfl

theorem fetch_run_details_calls (gw : Gateway) (st : AppState) (rn : String)
    (run_id : Nat) :
    (fetch_run_details gw st rn run_id).2 = [] ∨
    (fetch_run_details gw st rn run_id).2 =
      [GatewayCall.detailFetch rn run_id] := by
  unfold fetch_run_details
  split
  · exact Or.inl rfl
  · dsimp only
    split
    · exact Or.inr rfl
    · split
      · exact Or.inr rfl
      · exact Or.inr rfl

theorem show_detailed_log_calls (gw : Gateway) (st : AppState) (i : Nat) :
    (show_detailed_log gw st i).2 = [] ∨
    ∃ r n, (show_detailed_log gw st i).2 = [GatewayCall.detailFetch r n] := by
  unfold show_detailed_log
  split
  · dsimp only
    rcases hrm : (match st.repoIndex with
      | some j => st.repos.get? j
      | none => none) with _ | rn
    · rw [hrm]
      exact Or.inl rfl
    · rw [hrm]
      dsimp only
      split
      · rcases fetch_run_details_calls gw st rn _ with h0 | h0 <;> rw [h0]
        · exact Or.inl rfl
        · exact Or.inr ⟨rn, _, rfl⟩
      · exact Or.inl rfl
  · exact Or.inl rfl

/-- The workflow collection after `load_workflows` is exactly the fetch
result (independent of the prior collection), and the calls are the workflow
fetch followed optionally by one runs fetch, which is anchored to the id of
the NEW collection's workflow 0. -/
theorem load_workflows_trace (gw : Gateway) (st : AppState) (repo : String) :
    (load_workflows gw st repo).1.workflows = (workflowsResult gw st.token repo).1 ∧
    ∃ t1, (load_workflows gw st repo).2 = (workflowsResult gw st.token repo).2 ++ t1 ∧
      (t1 = [] ∨ ∃ w ws, (workflowsResult gw st.token repo).1 = w :: ws ∧
        t1 = [GatewayCall.runsFetch repo w.id]) := by
  unfold load_workflows
  dsimp only
  rcases hwc : (workflowsResult gw st.token repo).1 with _ | ⟨w, ws⟩
  · exact ⟨rfl, [], (List.append_nil _).symm, Or.inl rfl⟩
  · refine ⟨?_, (load_runs gw { st with workflows := w :: ws } repo w.id w.name).2,
      rfl, ?_⟩
    · rw [load_runs_workflows]
    · rw [load_runs_calls]
      dsimp only
      rcases runsResult_calls gw st.token repo w.id w.name with h0 | h0 <;> rw [h0]
      · exact Or.inl rfl
      · exact Or.inr ⟨w, ws, rfl, rfl⟩

/-- The cascade trace is the `load_workflows` trace followed optionally by
one detail fetch. -/
theorem selectRepoCascade_trace (gw : Gateway) (st : AppState) (idx : Nat) :
    ∃ t2, (selectRepoCascade gw st idx).2 =
      (load_workflows gw { st with repoIndex := some idx }
        (st.repos.getD idx "")).2 ++ t2 ∧
      (t2 = [] ∨ ∃ r n, t2 = [GatewayCall.detailFetch r n]) := by
  unfold selectRepoCascade selectRepo
  dsimp only
  split
  · exact ⟨(show_detailed_log gw _ 0).2, rfl, show_detailed_log_calls gw _ 0⟩
  · exact ⟨[], (List.append_nil _).symm, Or.inl rfl⟩

theorem selectRepoCascade_workflows (gw : Gateway) (st : AppState) (idx : Nat) :
    (selectRepoCascade gw st idx).1.workflows =
      (workflowsResult gw st.token (st.repos.getD idx "")).1 := by
  unfold selectRepoCascade selectRepo
  dsimp only
  split
  · rw [show_detailed_log_workflows]
    exact (load_workflows_trace gw { st with repoIndex := some idx }
      (st.repos.getD idx "")).1
  · exact (load_workflows_trace gw { st with repoIndex := some idx }
      (st.repos.getD idx "")).1

/-- C3: selecting repository index `idx` on a non-empty repository list
replaces the workflow collection wholesale with the fetch result for that
repository (the prior collection is irrelevant) and re-anchors the cascade to
workflow index 0: any run-level fetch the cascade issues uses the id of the
new collection's head.  The observable gateway call order of the cascade is
sorted by level: every workflows-fetch precedes every runs-fetch, which
precedes every detail-fetch. -/
theorem C3_selection_cascade (gw : Gateway) (st : AppState) (idx : Nat)
    (hidx : idx < st.repos.length) :
    (∀ w : List Workflow,
      (selectRepoCascade gw { st with workflows := w } idx).1.workflows =
        (selectRepoCascade gw st idx).1.workflows) ∧
    (selectRepoCascade gw st idx).1.workflows =
      (workflowsResult gw st.token (st.repos.getD idx "")).1 ∧
    (∀ r wid, GatewayCall.runsFetch r wid ∈ (selectRepoCascade gw st idx).2 →
      ∃ w ws, (selectRepoCascade gw st idx).1.workflows = w :: ws ∧ wid = w.id) ∧
    List.Pairwise (fun a b => fetchPhase a ≤ fetchPhase b)
      (selectRepoCascade gw st idx).2 := by
  refine ⟨?_, selectRepoCascade_workflows gw st idx, ?_, ?_⟩
  · intro w
    rw [selectRepoCascade_workflows, selectRepoCascade_workflows]
  · intro r wid hmem
    obtain ⟨t2, ht2eq, ht2shape⟩ := selectRepoCascade_trace gw st idx
    obtain ⟨hwfs, t1, ht1eq, ht1shape⟩ := load_workflows_trace gw
      { st with repoIndex := some idx } (st.repos.getD idx "")
    rw [ht2eq, ht1eq] at hmem
    dsimp only at hmem
    rw [selectRepoCascade_workflows]
    rcases ht2shape with h2 | ⟨rr, nn, h2⟩ <;>
    rcases ht1shape with h1 | ⟨w, ws, hcons, h1⟩ <;>
    rcases workflowsResult_calls gw st.token (st.repos.getD idx "") with hA | hA <;>
      rw [h2, h1, hA] at hmem <;>
      simp at hmem <;>
      exact ⟨w, ws, by dsimp only at hcons; exact hcons, hmem.2⟩
  · obtain ⟨t2, ht2eq, ht2shape⟩ := selectRepoCascade_trace gw st idx
    obtain ⟨hwfs, t1, ht1eq, ht1shape⟩ := load_workflows_trace gw
      { st with repoIndex := some idx } (st.repos.getD idx "")
    rw [ht2eq, ht1eq]
    rcases ht2shape with h2 | ⟨rr, nn, h2⟩ <;> rw [h2] <;>
    rcases ht1shape with h1 | ⟨w, ws, hcons, h1⟩ <;> rw [h1] <;>
    rcases workflowsResult_calls gw st.token (st.repos.getD idx "") with hA | hA <;>
      rw [hA] <;>
      simp [List.pairwise_append, List.pairwise_cons, fetchPhase]

/-- Witness for C3 on the sample state with the sample gateway: the full
repo → workflow → run → detail cascade. -/
theorem C3_selection_cascade_witness :
    (selectRepoCascade sampleGateway sampleState 0).1.workflows =
      (workflowsResult sampleGateway sampleState.token
        (sampleState.repos.getD 0 "")).1 ∧
    List.Pairwise (fun a b => fetchPhase a ≤ fetchPhase b)
      (selectRepoCascade sampleGateway sampleState 0).2 :=
  ⟨(C3_selection_cascade sampleGateway sampleState 0 (by decide)).2.1,
   (C3_selection_cascade sampleGateway sampleState 0 (by decide)).2.2.2⟩

end ActionCheck
